import Mathlib

/-!
Verification development for the railway optimization service
(optimizer/python_service).  The Python pipeline builds a CP-SAT model from
an OptimizationRequest, solves it, and converts the raw outcome into an
OptimizationResponse.  This file gives a shallow embedding:

* Python floats and datetimes are modelled as exact rationals (datetimes as
  seconds since the request reference epoch); Python int() truncation toward
  zero is `pyTrunc`.
* The CP-SAT model built by `OptimizationEngine` is embedded as a decidable
  predicate `modelSat` over an `Assignment` (one value per decision-variable
  name, exactly the string-keyed dictionaries the source uses).  A solver
  outcome of OPTIMAL or FEASIBLE guarantees precisely that the returned
  variable values satisfy every constraint added to the model, so a solved
  schedule is an assignment with `modelSat = true`.
* The external solver call (and wall-clock reads) are the only
  non-deterministic steps; they enter as an explicit `SolveOutcome` oracle,
  mirroring the try/except structure of `optimize_schedule`.
* Python dictionaries keyed by strings, when probed with Enum members
  (models.py defines TrainPriority, ObjectiveType and ConstraintType as plain
  Enum classes), never hit: Enum members use identity-based equality and are
  never equal to str objects.  This cross-type equality is embedded by
  `pyKeyEq`, so the constant-miss behaviour is derived, not assumed.
-/

namespace RailwayOpt

/-- Python int() applied to a rational value: truncation toward zero, the
floor for nonnegative values and the ceiling for negative ones. -/
def pyTrunc (q : ℚ) : Int := if 0 ≤ q then ⌊q⌋ else ⌈q⌉

/-- Mirrors models.py OptimizationStatus. -/
inductive OptimizationStatus where
  | OPTIMAL | FEASIBLE | INFEASIBLE | UNKNOWN | TIME_LIMIT_EXCEEDED | ERROR
deriving DecidableEq, Repr

/-- Mirrors models.py TrainType. -/
inductive TrainType where
  | PASSENGER | EXPRESS | FREIGHT | MAIL | MAINTENANCE | EMPTY
deriving DecidableEq, Repr

/-- Mirrors models.py TrainPriority (a plain Enum: members are not strings). -/
inductive TrainPriority where
  | EMERGENCY | EXPRESS | MAIL | PASSENGER | FREIGHT | MAINTENANCE
deriving DecidableEq, Repr

/-- Mirrors models.py ObjectiveType (a plain Enum: members are not strings). -/
inductive ObjectiveType where
  | MINIMIZE_DELAY | MAXIMIZE_THROUGHPUT | MINIMIZE_ENERGY_CONSUMPTION
  | MAXIMIZE_UTILIZATION | MINIMIZE_CONFLICTS | BALANCED_OPTIMAL
deriving DecidableEq, Repr

/-- Mirrors models.py ConstraintType (a plain Enum: members are not strings). -/
inductive ConstraintType where
  | SAFETY_DISTANCE | PLATFORM_CAPACITY | TRAIN_PRIORITY | MAINTENANCE_WINDOW
  | SPEED_LIMIT | CROSSING_TIME | SIGNAL_SPACING | ENERGY_EFFICIENCY
  | PASSENGER_TRANSFER
deriving DecidableEq, Repr

/-- The raw CP-SAT solver statuses that `_process_solution` distinguishes
(cp_model.OPTIMAL, FEASIBLE, INFEASIBLE, UNKNOWN; every other value, in
particular MODEL_INVALID, falls to the final else branch). -/
inductive CpStatus where
  | UNKNOWN | MODEL_INVALID | FEASIBLE | INFEASIBLE | OPTIMAL
deriving DecidableEq, Repr

/-- A Python dictionary key: the source mixes str keys with Enum-member
probes.  models.py defines the enums as plain Enum classes, so a member is
never equal to a str (default identity equality); `pyKeyEq` embeds exactly
that comparison. -/
inductive PyKey where
  | pstr (s : String)
  | pPriority (p : TrainPriority)
  | pObjective (o : ObjectiveType)
  | pConstraintType (c : ConstraintType)

/-- Python equality between dictionary keys: structural within one type,
False across types (plain Enum members never equal str objects). -/
def pyKeyEq : PyKey → PyKey → Bool
  | PyKey.pstr a, PyKey.pstr b => a == b
  | PyKey.pPriority a, PyKey.pPriority b => decide (a = b)
  | PyKey.pObjective a, PyKey.pObjective b => decide (a = b)
  | PyKey.pConstraintType a, PyKey.pConstraintType b => decide (a = b)
  | _, _ => false

/-- Python dict.get(key, default) over an association list of PyKey keys. -/
def pyDictGetInt (d : List (PyKey × Int)) (k : PyKey) (dflt : Int) : Int :=
  match d.find? (fun kv => pyKeyEq kv.1 k) with
  | some kv => kv.2
  | none => dflt

/-- Mirrors models.py TrainCharacteristics (defaults as in the dataclass;
the post-init hook replaces a missing required_platforms with []). -/
structure TrainCharacteristics where
  acceleration_ms2 : ℚ := 1.0
  deceleration_ms2 : ℚ := 1.2
  power_kw : ℚ := 2000.0
  weight_tons : ℚ := 400.0
  passenger_load_percent : Int := 70
  is_electric : Bool := true
  required_platforms : List String := []
deriving DecidableEq

/-- Mirrors models.py Train.  Datetimes are rationals (seconds since the
request reference epoch); floats are rationals.  The post-init hook replaces
a missing characteristics with the default TrainCharacteristics, so the
field is total here. -/
structure Train where
  id : String
  train_number : Int
  train_type : TrainType
  priority : TrainPriority
  capacity_passengers : Int
  length_meters : ℚ
  max_speed_kmh : ℚ
  scheduled_departure : ℚ
  scheduled_arrival : ℚ
  origin_station : String
  destination_station : String
  route_sections : List String
  characteristics : TrainCharacteristics := {}
deriving DecidableEq

/-- Mirrors models.py Constraint.  The string-keyed parameter mapping is an
association list. -/
structure Constraint where
  id : String
  type : ConstraintType
  priority : Int
  parameters : List (String × String)
  is_hard_constraint : Bool := true
deriving DecidableEq

/-- Mirrors models.py WeightedObjective. -/
structure WeightedObjective where
  objective : ObjectiveType
  weight : ℚ
deriving DecidableEq

/-- Mirrors models.py OptimizationObjective. -/
structure OptimizationObjective where
  primary_objective : ObjectiveType
  secondary_objectives : List WeightedObjective := []
  time_limit_seconds : ℚ := 30.0
  enable_preprocessing : Bool := true
deriving DecidableEq

/-- Mirrors models.py OptimizationConfig. -/
structure OptimizationConfig where
  max_solver_time_seconds : Int := 30
  enable_preprocessing : Bool := true
  num_search_workers : Int := 4
  strategy : String := "AUTOMATIC"
  enable_detailed_logging : Bool := false
deriving DecidableEq

/-- Mirrors models.py DisruptionEvent. -/
structure DisruptionEvent where
  id : String
  type : String
  affected_section : String
  start_time : ℚ
  end_time : ℚ
  severity : Int
  metadata : List (String × String) := []
deriving DecidableEq

/-- Mirrors models.py OptimizationRequest. -/
structure OptimizationRequest where
  request_id : String
  section_id : String
  time_horizon_minutes : Int
  trains : List Train
  constraints : List Constraint
  objective : OptimizationObjective
  disruptions : List DisruptionEvent
  requested_at : ℚ
  config : OptimizationConfig
deriving DecidableEq

/-- Mirrors models.py SpeedProfilePoint. -/
structure SpeedProfilePoint where
  position_km : ℚ
  speed_kmh : ℚ
  time_offset_minutes : ℚ
deriving DecidableEq

/-- Mirrors models.py TrainScheduleEntry. -/
structure TrainScheduleEntry where
  train_id : String
  train_number : Int
  scheduled_departure : ℚ
  scheduled_arrival : ℚ
  platform : Int
  priority_applied : TrainPriority
  delay_adjustment_minutes : Int
  conflicts_resolved : List String
  speed_profile : List SpeedProfilePoint
deriving DecidableEq

/-- Mirrors models.py PerformanceMetrics with its zero defaults. -/
structure PerformanceMetrics where
  total_delay_minutes : ℚ := 0
  average_delay_per_train : ℚ := 0
  conflicts_resolved : Nat := 0
  throughput_trains_per_hour : ℚ := 0
  utilization_percent : ℚ := 0
  energy_consumption_kwh : ℚ := 0
  platform_changes : Nat := 0
  passenger_waiting_time_minutes : ℚ := 0
deriving DecidableEq

/-- Mirrors models.py AlternativeSchedule. -/
structure AlternativeSchedule where
  name : String
  description : String
  schedule : List TrainScheduleEntry
  kpis : PerformanceMetrics
  trade_offs : String
  score : ℚ
deriving DecidableEq

/-- Mirrors models.py OptimizationResponse. -/
structure OptimizationResponse where
  request_id : String
  status : OptimizationStatus
  optimized_schedule : List TrainScheduleEntry
  kpis : PerformanceMetrics
  reasoning : String
  confidence_score : ℚ
  alternatives : List AlternativeSchedule
  execution_time_ms : Int
  completed_at : ℚ
  error_message : String := ""
deriving DecidableEq

/-- A value for every decision variable the engine creates, keyed exactly as
the variables dictionary of `_create_decision_variables` keys them: the per
train vars by train id, the speed vars by the string id_section, and the
per train per position section-time vars of `_add_route_constraints` by
(train index, section position) since those are fresh variables held in a
local list.  The boolean section-occupancy variables are created but no
constraint or output ever references them, so they are omitted. -/
structure Assignment where
  train_start_times : String → Int
  train_end_times : String → Int
  platform_assignments : String → Int
  train_delays : String → Int
  speed_variables : String → Int
  section_times : Nat → Nat → Int

/-- Embeds `_calculate_journey_time` (optimization_engine.py 444-451):
distance is 10 km per route section, average speed is 80 percent of max
speed capped at 80 km/h, and the hours-to-minutes result goes through
Python int(). -/
def calculate_journey_time (t : Train) : Int :=
  let total_distance : ℚ := (t.route_sections.length : ℚ) * 10
  let average_speed : ℚ := min (t.max_speed_kmh * 0.8) 80
  let journey_time_hours : ℚ := total_distance / average_speed
  pyTrunc (journey_time_hours * 60)

/-- Embeds `_datetime_to_minutes` (optimization_engine.py 453-456). -/
def datetime_to_minutes (dt reference : ℚ) : Int :=
  pyTrunc ((dt - reference) / 60)

/-- The priority_order dict of `_add_priority_constraints`
(optimization_engine.py 249-252): str keys. -/
def priority_order : List (PyKey × Int) :=
  [(PyKey.pstr "EMERGENCY", 1), (PyKey.pstr "EXPRESS", 2), (PyKey.pstr "MAIL", 3),
   (PyKey.pstr "PASSENGER", 4), (PyKey.pstr "FREIGHT", 5), (PyKey.pstr "MAINTENANCE", 6)]

/-- priority_order.get(train.priority, 6) as `_add_priority_constraints`
evaluates it: the probe key is the TrainPriority Enum member itself. -/
def priorityRank (p : TrainPriority) : Int :=
  pyDictGetInt priority_order (PyKey.pPriority p) 6

/-- The priority_weights dict of ObjectiveManager._get_priority_weight
(objectives.py 275-283), probed with the TrainPriority Enum member and
defaulting to 3. -/
def priority_weights : List (PyKey × Int) :=
  [(PyKey.pstr "EMERGENCY", 10), (PyKey.pstr "EXPRESS", 8), (PyKey.pstr "MAIL", 6),
   (PyKey.pstr "PASSENGER", 4), (PyKey.pstr "FREIGHT", 2), (PyKey.pstr "MAINTENANCE", 1)]

/-- Embeds `_get_priority_weight` (objectives.py 265-283). -/
def get_priority_weight (p : TrainPriority) : Int :=
  pyDictGetInt priority_weights (PyKey.pPriority p) 3

/-- Nonempty set intersection of the two route-section lists, as
`_add_safety_constraints` and `_add_priority_constraints` compute it. -/
def sharesSection (t1 t2 : Train) : Bool :=
  t1.route_sections.any (fun s => decide (s ∈ t2.route_sections))

/-- All ordered pairs i < j of a list, as the nested loops
`for i, x in enumerate(l): for j, y in enumerate(l[i+1:], i+1)` visit them. -/
def listPairsAll (f : α → α → Bool) : List α → Bool
  | [] => true
  | x :: xs => xs.all (f x) && listPairsAll f xs

/-- Domains of the decision variables of `_create_decision_variables`
(optimization_engine.py 87-138): start and end times in [0, horizon],
platform in [1, 10], delay in [-30, 60], each per-section speed in
[20, int(max_speed_kmh)]. -/
def boundsOkTrain (H : Int) (a : Assignment) (t : Train) : Bool :=
  decide (0 ≤ a.train_start_times t.id) && decide (a.train_start_times t.id ≤ H) &&
  decide (0 ≤ a.train_end_times t.id) && decide (a.train_end_times t.id ≤ H) &&
  decide (1 ≤ a.platform_assignments t.id) && decide (a.platform_assignments t.id ≤ 10) &&
  decide (-30 ≤ a.train_delays t.id) && decide (a.train_delays t.id ≤ 60) &&
  t.route_sections.all (fun s =>
    decide (20 ≤ a.speed_variables (t.id ++ "_" ++ s)) &&
    decide (a.speed_variables (t.id ++ "_" ++ s) ≤ pyTrunc t.max_speed_kmh))

/-- Variable domains for every train of the request. -/
def boundsOk (req : OptimizationRequest) (a : Assignment) : Bool :=
  req.trains.all (boundsOkTrain req.time_horizon_minutes a)

/-- Embeds `_add_timing_constraints` (optimization_engine.py 163-179) for one
train: end = start + journey time, start = scheduled offset + delay. -/
def timingOkTrain (req : OptimizationRequest) (a : Assignment) (t : Train) : Bool :=
  (a.train_end_times t.id == a.train_start_times t.id + calculate_journey_time t) &&
  (a.train_start_times t.id ==
    datetime_to_minutes t.scheduled_departure req.requested_at + a.train_delays t.id)

/-- Timing constraints for every train of the request. -/
def timingOk (req : OptimizationRequest) (a : Assignment) : Bool :=
  req.trains.all (timingOkTrain req a)

/-- Adds the key with an empty list when absent (station_trains setdefault
pattern of `_add_platform_constraints`). -/
def ensureKey (m : List (String × List Train)) (k : String) : List (String × List Train) :=
  if m.any (fun p => p.1 == k) then m else m ++ [(k, [])]

/-- Appends the train to the list stored under the key. -/
def appendVal (m : List (String × List Train)) (k : String) (t : Train) :
    List (String × List Train) :=
  m.map (fun p => if p.1 == k then (p.1, p.2 ++ [t]) else p)

/-- One loop step of `_add_platform_constraints` (optimization_engine.py
183-195): make sure both station keys exist, then append the train to its
origin list and to its destination list. -/
def stationStep (m : List (String × List Train)) (t : Train) : List (String × List Train) :=
  let m1 := ensureKey m t.origin_station
  let m2 := ensureKey m1 t.destination_station
  let m3 := appendVal m2 t.origin_station t
  appendVal m3 t.destination_station t

/-- The station_trains grouping of `_add_platform_constraints`. -/
def stationTrains (trains : List Train) : List (String × List Train) :=
  trains.foldl stationStep []

/-- Embeds `_add_platform_conflict_constraint` (optimization_engine.py
203-221).  The auxiliary boolean same_platform is forced to equal
(platform1 = platform2); the free boolean no_overlap turns the two
half-reified constraints into a disjunction, so the constraint on the
observable variables is: same platform implies the intervals do not
overlap. -/
def platformPairOk (a : Assignment) (t1 t2 : Train) : Bool :=
  !(a.platform_assignments t1.id == a.platform_assignments t2.id) ||
  (decide (a.train_end_times t1.id ≤ a.train_start_times t2.id) ||
   decide (a.train_end_times t2.id ≤ a.train_start_times t1.id))

/-- Platform conflict constraints over every station group. -/
def platformOk (req : OptimizationRequest) (a : Assignment) : Bool :=
  (stationTrains req.trains).all (fun p => listPairsAll (platformPairOk a) p.2)

/-- Embeds `_add_headway_constraint` (optimization_engine.py 235-244): the
free order boolean makes the two half-reified constraints a disjunction,
start1 at least start2 + 5 or start2 at least start1 + 5. -/
def headwayPairOk (a : Assignment) (t1 t2 : Train) : Bool :=
  !sharesSection t1 t2 ||
  (decide (a.train_start_times t2.id + 5 ≤ a.train_start_times t1.id) ||
   decide (a.train_start_times t1.id + 5 ≤ a.train_start_times t2.id))

/-- Embeds `_add_safety_constraints` (optimization_engine.py 223-233) with
the minimum_headway of 5 minutes over all ordered train pairs sharing a
route section. -/
def safetyOk (req : OptimizationRequest) (a : Assignment) : Bool :=
  listPairsAll (headwayPairOk a) req.trains

/-- Embeds the body of the pair loop of `_add_priority_constraints`
(optimization_engine.py 254-265): only when the first train has a strictly
smaller rank and the pair shares a section is start1 at most start2
required.  The ranks come from `priorityRank`, the Enum-probed dict get. -/
def priorityPairOk (a : Assignment) (t1 t2 : Train) : Bool :=
  if priorityRank t1.priority < priorityRank t2.priority then
    if sharesSection t1 t2 then
      decide (a.train_start_times t1.id ≤ a.train_start_times t2.id)
    else true
  else true

/-- Priority constraints over all ordered train pairs. -/
def priorityOk (req : OptimizationRequest) (a : Assignment) : Bool :=
  listPairsAll (priorityPairOk a) req.trains

/-- Embeds `_add_route_constraints` (optimization_engine.py 267-279) for one
train: each fresh section-time variable lies in [0, horizon] and is at
least one more than its predecessor. -/
def routeOkTrain (H : Int) (a : Assignment) (idx : Nat) (t : Train) : Bool :=
  (List.range t.route_sections.length).all (fun k =>
    decide (0 ≤ a.section_times idx k) && decide (a.section_times idx k ≤ H) &&
    (k == 0 || decide (a.section_times idx (k - 1) + 1 ≤ a.section_times idx k)))

/-- Route sequencing constraints for every train (indexed, since the
section-time variables are fresh per train object). -/
def routeOk (req : OptimizationRequest) (a : Assignment) : Bool :=
  req.trains.enum.all (fun p => routeOkTrain req.time_horizon_minutes a p.1 p.2)

/-- The registry keys of ConstraintBuilder (constraint_models.py 20-30):
str keys. -/
def constraint_registry_keys : List String :=
  ["SAFETY_DISTANCE", "PLATFORM_CAPACITY", "TRAIN_PRIORITY", "MAINTENANCE_WINDOW",
   "SPEED_LIMIT", "CROSSING_TIME", "SIGNAL_SPACING", "ENERGY_EFFICIENCY",
   "PASSENGER_TRANSFER"]

/-- The membership test constraint.type in self.constraint_registry of
ConstraintBuilder.add_constraint: the probe key is the ConstraintType Enum
member, the stored keys are strings. -/
def constraintKindKnown (t : ConstraintType) : Bool :=
  constraint_registry_keys.any (fun k => pyKeyEq (PyKey.pstr k) (PyKey.pConstraintType t))

/-- What a registry handler would do if invoked: either finish or raise.
The handlers themselves manipulate the external CP-SAT model, so their
behaviour is an oracle parameter. -/
inductive HandlerOutcome where
  | ok
  | raiseExn (msg : String)

/-- Embeds ConstraintBuilder.add_constraint (constraint_models.py 32-57):
unknown kind is logged and returns False before any handler runs; a known
kind runs its handler inside try/except and returns False when it raises. -/
def add_constraint (handlers : ConstraintType → HandlerOutcome) (c : Constraint) : Bool :=
  if constraintKindKnown c.type then
    match handlers c.type with
    | HandlerOutcome.ok => true
    | HandlerOutcome.raiseExn _ => false
  else false

/-- Embeds `_add_custom_constraints` (optimization_engine.py 281-287): every
request constraint is passed to add_constraint inside try/except, so each
one yields a success flag and the loop always reaches the end. -/
def add_custom_constraints (handlers : ConstraintType → HandlerOutcome)
    (cs : List Constraint) : List Bool :=
  cs.map (add_constraint handlers)

/-- The full constraint set the engine adds to the CP-SAT model for a
request, in the order of `_add_constraints` (variable domains, then timing,
platform, safety, priority and route constraints).  Request-supplied
constraints contribute nothing: every registry lookup misses (see
constraintKindKnown_false below), so no handler ever touches the model. -/
def modelSat (req : OptimizationRequest) (a : Assignment) : Bool :=
  boundsOk req a && timingOk req a && platformOk req a && safetyOk req a &&
  priorityOk req a && routeOk req a

/-- The solver-status mapping at the top of `_process_solution`
(optimization_engine.py 362-371); the final else (reached by
MODEL_INVALID) maps to ERROR. -/
def mapStatus : CpStatus → OptimizationStatus
  | CpStatus.OPTIMAL => OptimizationStatus.OPTIMAL
  | CpStatus.FEASIBLE => OptimizationStatus.FEASIBLE
  | CpStatus.INFEASIBLE => OptimizationStatus.INFEASIBLE
  | CpStatus.UNKNOWN => OptimizationStatus.TIME_LIMIT_EXCEEDED
  | CpStatus.MODEL_INVALID => OptimizationStatus.ERROR

/-- The numeric values of the cp_model status constants (UNKNOWN 0,
MODEL_INVALID 1, FEASIBLE 2, INFEASIBLE 3, OPTIMAL 4), used where the
source formats the raw status into a string. -/
def cpStatusCode : CpStatus → Nat
  | CpStatus.UNKNOWN => 0
  | CpStatus.MODEL_INVALID => 1
  | CpStatus.FEASIBLE => 2
  | CpStatus.INFEASIBLE => 3
  | CpStatus.OPTIMAL => 4

/-- Embeds `_get_status_message` (optimization_engine.py 561-570); the dict
covers all five statuses, so the default branch is unreachable. -/
def get_status_message : CpStatus → String
  | CpStatus.OPTIMAL => "Optimal solution found"
  | CpStatus.FEASIBLE => "Feasible solution found"
  | CpStatus.INFEASIBLE => "Problem is infeasible"
  | CpStatus.UNKNOWN => "Solver status unknown"
  | CpStatus.MODEL_INVALID => "Model is invalid"

/-- Embeds `_calculate_confidence_score` (optimization_engine.py 549-559). -/
def calculate_confidence_score : OptimizationStatus → ℚ
  | OptimizationStatus.OPTIMAL => 1.0
  | OptimizationStatus.FEASIBLE => 0.85
  | OptimizationStatus.TIME_LIMIT_EXCEEDED => 0.75
  | _ => 0.0

/-- Python str() of an OptimizationStatus Enum member. -/
def statusValueRepr : OptimizationStatus → String
  | OptimizationStatus.OPTIMAL => "OptimizationStatus.OPTIMAL"
  | OptimizationStatus.FEASIBLE => "OptimizationStatus.FEASIBLE"
  | OptimizationStatus.INFEASIBLE => "OptimizationStatus.INFEASIBLE"
  | OptimizationStatus.UNKNOWN => "OptimizationStatus.UNKNOWN"
  | OptimizationStatus.TIME_LIMIT_EXCEEDED => "OptimizationStatus.TIME_LIMIT_EXCEEDED"
  | OptimizationStatus.ERROR => "OptimizationStatus.ERROR"

/-- Python percent .1f formatting of an integer-valued total: one trailing
zero decimal. -/
def intFmt1f (n : Int) : String := toString n ++ ".0"

/-- Embeds `_generate_reasoning` (optimization_engine.py 532-547).  The
total delay handed in by `_process_solution` is an integer sum of solver
values, so the one-decimal float format always renders a trailing .0. -/
def generate_reasoning (status : OptimizationStatus) (total_delay : Int)
    (num_trains : Nat) : String :=
  match status with
  | OptimizationStatus.OPTIMAL =>
      "Found optimal solution for " ++ toString num_trains ++
      " trains. Total delay minimized to " ++ intFmt1f total_delay ++
      " minutes. All constraints satisfied."
  | OptimizationStatus.FEASIBLE =>
      "Found feasible solution for " ++ toString num_trains ++
      " trains. Total delay: " ++ intFmt1f total_delay ++
      " minutes. Solution may not be globally optimal due to time constraints."
  | OptimizationStatus.INFEASIBLE =>
      "No feasible solution found. Consider relaxing constraints, " ++
      "extending time horizon, or reducing train density."
  | s => "Optimization completed with status: " ++ statusValueRepr s

/-- The keys of the speed_variables dictionary as
`_create_decision_variables` fills it: one string id_section per train and
route section. -/
def speedVarKeys (req : OptimizationRequest) : List String :=
  (req.trains.map (fun t => t.route_sections.map (fun s => t.id ++ "_" ++ s))).flatten

/-- Embeds `_generate_speed_profile` (optimization_engine.py 458-475):
solver value when the key is present (it always is for a train of the
request), otherwise 80 percent of max speed; fixed 10 km positions and
15 minute offsets per section index. -/
def generate_speed_profile (req : OptimizationRequest) (a : Assignment)
    (t : Train) : List SpeedProfilePoint :=
  t.route_sections.enum.map (fun is =>
    let key := t.id ++ "_" ++ is.2
    let speed : ℚ :=
      if (speedVarKeys req).contains key then (a.speed_variables key : ℚ)
      else t.max_speed_kmh * 0.8
    { position_km := (is.1 : ℚ) * 10
      speed_kmh := speed
      time_offset_minutes := (is.1 : ℚ) * 15 })

/-- One schedule entry of the extraction loop of `_process_solution`
(optimization_engine.py 379-407): absolute datetimes are the request
reference plus the solved minute offsets. -/
def scheduleEntryOfTrain (req : OptimizationRequest) (a : Assignment)
    (t : Train) : TrainScheduleEntry :=
  { train_id := t.id
    train_number := t.train_number
    scheduled_departure := req.requested_at + 60 * (a.train_start_times t.id : ℚ)
    scheduled_arrival := req.requested_at + 60 * (a.train_end_times t.id : ℚ)
    platform := a.platform_assignments t.id
    priority_applied := t.priority
    delay_adjustment_minutes := a.train_delays t.id
    conflicts_resolved := []
    speed_profile := generate_speed_profile req a t }

/-- Embeds `_count_conflicts_resolved` (optimization_engine.py 503-507):
the number of distinct train ids (the keys of the start-time dict) floor
divided by 3. -/
def count_conflicts_resolved (trains : List Train) : Nat :=
  ((trains.map (fun t => t.id)).eraseDups).length / 3

/-- Embeds `_count_platform_changes` (optimization_engine.py 523-530): one
change counted per schedule entry. -/
def count_platform_changes (schedule : List TrainScheduleEntry) : Nat :=
  schedule.length

/-- Embeds `_estimate_energy_consumption` (optimization_engine.py 509-521).
The characteristics field is always set (dataclass post-init), so the guard
reduces to whether the train id was found; `power_kw or 2000` falls back on
a zero power draw. -/
def estimate_energy_consumption (schedule : List TrainScheduleEntry)
    (trains : List Train) : ℚ :=
  schedule.foldl (fun acc e =>
    match trains.find? (fun t => t.id == e.train_id) with
    | some t =>
        let journey_time_hours : ℚ := |e.scheduled_arrival - e.scheduled_departure| / 3600
        let power_kw : ℚ := if t.characteristics.power_kw = 0 then 2000
                            else t.characteristics.power_kw
        acc + power_kw * journey_time_hours * 0.7
    | none => acc) 0

/-- Embeds `_calculate_performance_metrics` (optimization_engine.py
477-501).  The local on-time percentage the source computes is never
stored, and the window is the hardcoded time_span_hours of 2 with an
assumed capacity of 10 trains per hour. -/
def calculate_performance_metrics (schedule : List TrainScheduleEntry)
    (original_trains : List Train) : PerformanceMetrics :=
  let total_delay : Int := (schedule.map (fun e => max 0 e.delay_adjustment_minutes)).sum
  let avg_delay : ℚ := if schedule.length = 0 then 0
                       else (total_delay : ℚ) / (schedule.length : ℚ)
  let time_span_hours : ℚ := 2
  { total_delay_minutes := (total_delay : ℚ)
    average_delay_per_train := avg_delay
    conflicts_resolved := count_conflicts_resolved original_trains
    throughput_trains_per_hour := (schedule.length : ℚ) / time_span_hours
    utilization_percent := min ((schedule.length : ℚ) / (time_span_hours * 10) * 100) 100
    energy_consumption_kwh := estimate_energy_consumption schedule original_trains
    platform_changes := count_platform_changes schedule
    passenger_waiting_time_minutes := avg_delay * 0.8 }

/-- Embeds `_process_solution` (optimization_engine.py 357-442).  The solver
only contributes the raw status and the variable values (the assignment);
execution time and completion timestamp are wall-clock reads and enter as
parameters. -/
def processSolution (req : OptimizationRequest) (st : CpStatus) (a : Assignment)
    (execution_time_ms : Int) (completed_at : ℚ) : OptimizationResponse :=
  let opt_status := mapStatus st
  if st = CpStatus.OPTIMAL ∨ st = CpStatus.FEASIBLE then
    let optimized_schedule := req.trains.map (scheduleEntryOfTrain req a)
    let total_delay : Int := (req.trains.map (fun t => max 0 (a.train_delays t.id))).sum
    { request_id := req.request_id
      status := opt_status
      optimized_schedule := optimized_schedule
      kpis := calculate_performance_metrics optimized_schedule req.trains
      reasoning := generate_reasoning opt_status total_delay req.trains.length
      confidence_score := calculate_confidence_score opt_status
      alternatives := []
      execution_time_ms := execution_time_ms
      completed_at := completed_at
      error_message := "" }
  else
    { request_id := req.request_id
      status := opt_status
      optimized_schedule := []
      kpis := {}
      reasoning := "Optimization failed with status: " ++ toString (cpStatusCode st)
      confidence_score := 0.0
      alternatives := []
      execution_time_ms := execution_time_ms
      completed_at := completed_at
      error_message := get_status_message st }

/-- Embeds `_create_error_response` (optimization_engine.py 572-586). -/
def create_error_response (req : OptimizationRequest) (error_msg : String)
    (execution_time_ms : Int) (completed_at : ℚ) : OptimizationResponse :=
  { request_id := req.request_id
    status := OptimizationStatus.ERROR
    optimized_schedule := []
    kpis := {}
    reasoning := ""
    confidence_score := 0.0
    alternatives := []
    execution_time_ms := execution_time_ms
    completed_at := completed_at
    error_message := error_msg }

/-- What the try block of optimize_schedule observes of the external world:
either the CP-SAT solve returns a raw status together with variable values,
or some step inside the try block raises an exception with the given
message text. -/
inductive SolveOutcome where
  | ok (status : CpStatus) (values : Assignment)
  | exn (message : String)

/-- Embeds optimize_schedule (optimization_engine.py 35-85): the whole
pipeline runs inside one try block; a normal solver outcome is processed by
`_process_solution`, and any raised exception is caught and converted by
`_create_error_response` with str(e) as the message. -/
def optimize_schedule (req : OptimizationRequest) (outcome : SolveOutcome)
    (execution_time_ms : Int) (completed_at : ℚ) : OptimizationResponse :=
  match outcome with
  | SolveOutcome.ok st a => processSolution req st a execution_time_ms completed_at
  | SolveOutcome.exn msg => create_error_response req msg execution_time_ms completed_at

/-- Whether the objective expression handed to the solver is minimized or
maximized. -/
inductive ObjSense where
  | minimizeSense
  | maximizeSense
deriving DecidableEq

/-- The sum of the raw (signed) delay variables over the request trains. -/
def sumDelays (req : OptimizationRequest) (a : Assignment) : Int :=
  (req.trains.map (fun t => a.train_delays t.id)).sum

/-- The number of trains whose delay variable is at most the cutoff: the
value of the sum of the forced on_time booleans of `_set_objective`. -/
def countOnTime (req : OptimizationRequest) (a : Assignment) (cutoff : Int) : Int :=
  ((req.trains.filter (fun t => decide (a.train_delays t.id ≤ cutoff))).length : Int)

/-- Embeds `_set_objective` (optimization_engine.py 289-340) as the sense
and value (per assignment) of the objective expression handed to the
solver.  Each branch guard compares the ObjectiveType Enum member against a
str with Python ==, embedded by pyKeyEq; models.py ObjectiveType is a plain
Enum, so every guard is False and the final else runs, minimizing the sum
of the raw delay variables.  The branch bodies are kept for faithfulness;
the on_time booleans they would create are forced equal to their delay
comparisons, so their sums are functions of the assignment. -/
def setObjective (req : OptimizationRequest) : ObjSense × (Assignment → Int) :=
  if pyKeyEq (PyKey.pObjective req.objective.primary_objective) (PyKey.pstr "MINIMIZE_DELAY") then
    (ObjSense.minimizeSense, fun a => sumDelays req a)
  else if pyKeyEq (PyKey.pObjective req.objective.primary_objective)
      (PyKey.pstr "MAXIMIZE_THROUGHPUT") then
    (ObjSense.maximizeSense, fun a => countOnTime req a 5)
  else if pyKeyEq (PyKey.pObjective req.objective.primary_objective)
      (PyKey.pstr "BALANCED_OPTIMAL") then
    (ObjSense.minimizeSense, fun a => sumDelays req a - countOnTime req a 3 * 10)
  else
    (ObjSense.minimizeSense, fun a => sumDelays req a)

/-- Modelled from the claim wording, for comparison with the embedded
`setObjective`: the sum over all trains of the positive part of the delay
multiplied by the fixed priority weight table EMERGENCY 10, EXPRESS 8,
MAIL 6, PASSENGER 4, FREIGHT 2, MAINTENANCE 1 (the stated default 3 cannot
arise for a member of the closed TrainPriority enumeration). -/
def claimPriorityWeight : TrainPriority → Int
  | TrainPriority.EMERGENCY => 10
  | TrainPriority.EXPRESS => 8
  | TrainPriority.MAIL => 6
  | TrainPriority.PASSENGER => 4
  | TrainPriority.FREIGHT => 2
  | TrainPriority.MAINTENANCE => 1

/-- Modelled from the claim wording: the priority-weighted positive-part
delay objective the claim says the solver minimizes. -/
def claimMinimizeDelayObjective (req : OptimizationRequest) (a : Assignment) : Int :=
  (req.trains.map (fun t => max 0 (a.train_delays t.id) * claimPriorityWeight t.priority)).sum

/-! ## Derived facts about the embedded pipeline -/

/-- The Enum-probed priority_order lookup of `_add_priority_constraints`
always returns the default 6: the dict keys are strings and a plain Enum
member never equals a str. -/
theorem priorityRank_eq_six (p : TrainPriority) : priorityRank p = 6 := by
  cases p <;> rfl

/-- The Enum-probed registry membership test of
ConstraintBuilder.add_constraint always misses: the registry keys are
strings and a plain Enum member never equals a str. -/
theorem constraintKindKnown_false (t : ConstraintType) : constraintKindKnown t = false := by
  cases t <;> rfl

/-- add_constraint always takes the unknown-kind early return. -/
theorem add_constraint_false (handlers : ConstraintType → HandlerOutcome)
    (c : Constraint) : add_constraint handlers c = false := by
  simp [add_constraint, constraintKindKnown_false]

/-- Extracting one ordered pair from a listPairsAll check. -/
theorem listPairsAll_get {α : Type} (f : α → α → Bool) :
    ∀ (l : List α), listPairsAll f l = true →
    ∀ (i j : Nat) (hi : i < l.length) (hj : j < l.length), i < j →
    f (l.get ⟨i, hi⟩) (l.get ⟨j, hj⟩) = true := by
  intro l
  induction l with
  | nil => intro _ i j hi _ _; exact absurd hi (by simp)
  | cons x xs ih =>
      intro h i j hi hj hij
      rw [listPairsAll, Bool.and_eq_true] at h
      obtain ⟨h1, h2⟩ := h
      match i, j with
      | 0, j' + 1 =>
          have hj' : j' < xs.length := by simpa using hj
          exact List.all_eq_true.mp h1 _ (List.get_mem xs j' hj')
      | i' + 1, j' + 1 =>
          exact ih h2 i' j' (by simpa using hi) (by simpa using hj) (by omega)

/-- Sharing a route section is symmetric. -/
theorem sharesSection_symm {t1 t2 : Train} (h : sharesSection t1 t2 = true) :
    sharesSection t2 t1 = true := by
  simp only [sharesSection, List.any_eq_true, decide_eq_true_eq] at h ⊢
  obtain ⟨s, hs1, hs2⟩ := h
  exact ⟨s, hs2, hs1⟩

/-- The headway disjunction bounds the absolute start-time difference. -/
theorem headway_abs {x y : Int} (h : y + 5 ≤ x ∨ x + 5 ≤ y) : 5 ≤ |x - y| := by
  rcases h with h | h
  · rw [abs_of_nonneg (by omega : (0 : Int) ≤ x - y)]
    omega
  · rw [abs_of_nonpos (by omega : x - y ≤ (0 : Int))]
    omega

/-- A satisfying assignment satisfies the timing constraints. -/
theorem modelSat_timingOk {req : OptimizationRequest} {a : Assignment}
    (h : modelSat req a = true) : timingOk req a = true := by
  rw [modelSat] at h
  simp only [Bool.and_eq_true] at h
  exact h.1.1.1.1.2

/-- A satisfying assignment satisfies the safety headway constraints. -/
theorem modelSat_safetyOk {req : OptimizationRequest} {a : Assignment}
    (h : modelSat req a = true) : safetyOk req a = true := by
  rw [modelSat] at h
  simp only [Bool.and_eq_true] at h
  exact h.1.1.2

/-! ## Concrete requests and assignments used as inputs -/

/-- An express train scheduled 10 minutes after the reference time. -/
def wTrainA : Train :=
  { id := "A", train_number := 1, train_type := TrainType.EXPRESS,
    priority := TrainPriority.EXPRESS, capacity_passengers := 500,
    length_meters := 200, max_speed_kmh := 100, scheduled_departure := 600,
    scheduled_arrival := 4000, origin_station := "OA", destination_station := "DA",
    route_sections := ["S1"] }

/-- A passenger train scheduled 30 minutes after the reference time, sharing
section S1 with the express train. -/
def wTrainB : Train :=
  { id := "B", train_number := 2, train_type := TrainType.PASSENGER,
    priority := TrainPriority.PASSENGER, capacity_passengers := 800,
    length_meters := 160, max_speed_kmh := 100, scheduled_departure := 1800,
    scheduled_arrival := 5000, origin_station := "OB", destination_station := "DB",
    route_sections := ["S1"] }

/-- A two-train MINIMIZE_DELAY request over a 120 minute horizon. -/
def solvedReq : OptimizationRequest :=
  { request_id := "REQ-W", section_id := "SEC", time_horizon_minutes := 120,
    trains := [wTrainA, wTrainB], constraints := [],
    objective := { primary_objective := ObjectiveType.MINIMIZE_DELAY },
    disruptions := [], requested_at := 0, config := {} }

/-- A zero-delay solution of solvedReq: A runs 10 to 17, B runs 30 to 37. -/
def solvedA : Assignment :=
  { train_start_times := fun s => if s = "A" then 10 else 30
    train_end_times := fun s => if s = "A" then 17 else 37
    platform_assignments := fun s => if s = "A" then 1 else 2
    train_delays := fun _ => 0
    speed_variables := fun _ => 80
    section_times := fun _ _ => 0 }

/-- Another solution of solvedReq in which train A carries a 10 minute
delay: A runs 20 to 27, B runs 30 to 37. -/
def c7A : Assignment :=
  { train_start_times := fun s => if s = "A" then 20 else 30
    train_end_times := fun s => if s = "A" then 27 else 37
    platform_assignments := fun s => if s = "A" then 1 else 2
    train_delays := fun s => if s = "A" then 10 else 0
    speed_variables := fun _ => 80
    section_times := fun _ _ => 0 }

/-- An express train scheduled 40 minutes after the reference time. -/
def c1T1 : Train :=
  { id := "T1", train_number := 11, train_type := TrainType.EXPRESS,
    priority := TrainPriority.EXPRESS, capacity_passengers := 500,
    length_meters := 200, max_speed_kmh := 100, scheduled_departure := 2400,
    scheduled_arrival := 6000, origin_station := "SA", destination_station := "SB",
    route_sections := ["S1"] }

/-- A passenger train scheduled 30 minutes after the reference time, sharing
section S1 with the express train. -/
def c1T2 : Train :=
  { id := "T2", train_number := 12, train_type := TrainType.PASSENGER,
    priority := TrainPriority.PASSENGER, capacity_passengers := 800,
    length_meters := 160, max_speed_kmh := 100, scheduled_departure := 1800,
    scheduled_arrival := 5400, origin_station := "SC", destination_station := "SD",
    route_sections := ["S1"] }

/-- A two-train request in which the express train is scheduled after the
passenger train. -/
def c1Req : OptimizationRequest :=
  { request_id := "REQ-C1", section_id := "SEC", time_horizon_minutes := 120,
    trains := [c1T1, c1T2], constraints := [],
    objective := { primary_objective := ObjectiveType.MINIMIZE_DELAY },
    disruptions := [], requested_at := 0, config := {} }

/-- The delay-minimal solution of c1Req (both delays at the lower bound
-30): the express train starts at minute 10, the passenger train at
minute 0. -/
def c1A : Assignment :=
  { train_start_times := fun s => if s = "T1" then 10 else 0
    train_end_times := fun s => if s = "T1" then 17 else 7
    platform_assignments := fun s => if s = "T1" then 1 else 2
    train_delays := fun _ => -30
    speed_variables := fun _ => 80
    section_times := fun _ _ => 0 }

/-- The request of the repository test test_error_handling: zero time
horizon, no trains. -/
def c4Req : OptimizationRequest :=
  { request_id := "INVALID_REQ", section_id := "", time_horizon_minutes := 0,
    trains := [], constraints := [],
    objective := { primary_objective := ObjectiveType.MINIMIZE_DELAY },
    disruptions := [], requested_at := 0, config := {} }

/-- The trivial assignment: with no trains the model has no constrained
variables, so any values satisfy it. -/
def c4A : Assignment :=
  { train_start_times := fun _ => 0
    train_end_times := fun _ => 0
    platform_assignments := fun _ => 1
    train_delays := fun _ => 0
    speed_variables := fun _ => 20
    section_times := fun _ _ => 0 }

/-- Response-level confidence as the code actually computes it: 1.0 for
OPTIMAL, 0.85 for FEASIBLE, 0.0 for every other status (the 0.75
TIME_LIMIT_EXCEEDED branch of `_calculate_confidence_score` is only
reachable from the OPTIMAL and FEASIBLE path of `_process_solution`, which
never passes it that status). -/
def amended_confidence_of_status : OptimizationStatus → ℚ
  | OptimizationStatus.OPTIMAL => 1.0
  | OptimizationStatus.FEASIBLE => 0.85
  | _ => 0.0

/-- The whole constraint-processing loop yields only skipped constraints. -/
theorem add_custom_constraints_false (handlers : ConstraintType → HandlerOutcome) :
    ∀ cs : List Constraint,
    add_custom_constraints handlers cs = cs.map (fun _ => false) := by
  intro cs
  induction cs with
  | nil => rfl
  | cons c cs ih =>
      show add_constraint handlers c :: add_custom_constraints handlers cs =
        false :: cs.map (fun _ => false)
      rw [add_constraint_false, ih]

/-- The delay-minimal c1A satisfies every constraint of the model built for
c1Req. -/
theorem c1A_modelSat : modelSat c1Req c1A = true := by
  norm_num +decide [modelSat, boundsOk, boundsOkTrain, timingOk, timingOkTrain, platformOk,
    stationTrains, stationStep, ensureKey, appendVal, platformPairOk, safetyOk,
    headwayPairOk, sharesSection, priorityOk, priorityPairOk, routeOk, routeOkTrain,
    listPairsAll, c1Req, c1A, c1T1, c1T2, calculate_journey_time, datetime_to_minutes,
    pyTrunc, priorityRank, pyDictGetInt, priority_order, pyKeyEq]

/-- The zero-delay solvedA satisfies every constraint of the model built
for solvedReq. -/
theorem solvedA_modelSat : modelSat solvedReq solvedA = true := by
  norm_num +decide [modelSat, boundsOk, boundsOkTrain, timingOk, timingOkTrain, platformOk,
    stationTrains, stationStep, ensureKey, appendVal, platformPairOk, safetyOk,
    headwayPairOk, sharesSection, priorityOk, priorityPairOk, routeOk, routeOkTrain,
    listPairsAll, solvedReq, solvedA, wTrainA, wTrainB, calculate_journey_time,
    datetime_to_minutes, pyTrunc, priorityRank, pyDictGetInt, priority_order, pyKeyEq]

/-- The 10 minute delayed c7A also satisfies every constraint of the model
built for solvedReq. -/
theorem c7A_modelSat : modelSat solvedReq c7A = true := by
  norm_num +decide [modelSat, boundsOk, boundsOkTrain, timingOk, timingOkTrain, platformOk,
    stationTrains, stationStep, ensureKey, appendVal, platformPairOk, safetyOk,
    headwayPairOk, sharesSection, priorityOk, priorityPairOk, routeOk, routeOkTrain,
    listPairsAll, solvedReq, c7A, wTrainA, wTrainB, calculate_journey_time,
    datetime_to_minutes, pyTrunc, priorityRank, pyDictGetInt, priority_order, pyKeyEq]

/-- With no trains the built model constrains nothing, so the trivial
assignment satisfies it. -/
theorem c4A_modelSat : modelSat c4Req c4A = true := by
  norm_num +decide [modelSat, boundsOk, timingOk, platformOk, stationTrains, safetyOk,
    priorityOk, routeOk, listPairsAll, c4Req, c4A]

/-! ## The claims -/

/-- Claim C1 evidence (code_bug).  The claim says that in every solved
schedule a higher-priority train sharing a route section starts no later
than a lower-priority one.  The code never adds that constraint: the rank
lookup probes a string-keyed dict with the TrainPriority Enum member and
always returns the default 6, so the strict-rank guard never fires.  Here
c1Req holds an EXPRESS and a PASSENGER train sharing section S1, and the
assignment c1A, which is the delay-sum optimum (both delays at the lower
bound -30), satisfies every constraint of the built model while the
EXPRESS train starts strictly after the PASSENGER train. -/
theorem claim_c1_priority_constraint_missing :
    c1Req.trains = [c1T1, c1T2] ∧
    c1T1.priority = TrainPriority.EXPRESS ∧
    c1T2.priority = TrainPriority.PASSENGER ∧
    sharesSection c1T1 c1T2 = true ∧
    modelSat c1Req c1A = true ∧
    c1A.train_start_times c1T2.id < c1A.train_start_times c1T1.id :=
  ⟨rfl, rfl, rfl, by decide, c1A_modelSat, by decide⟩

/-- Claim C2: in every solved schedule (an assignment satisfying every
constraint the engine adds), any two distinct trains of the request that
share at least one route section have start times at least 5 minutes
apart, by the headway disjunction of `_add_safety_constraints`. -/
theorem claim_c2_headway (req : OptimizationRequest) (a : Assignment)
    (h : modelSat req a = true) (i j : Nat)
    (hi : i < req.trains.length) (hj : j < req.trains.length) (hij : i ≠ j)
    (hs : sharesSection (req.trains.get ⟨i, hi⟩) (req.trains.get ⟨j, hj⟩) = true) :
    5 ≤ |a.train_start_times (req.trains.get ⟨i, hi⟩).id -
          a.train_start_times (req.trains.get ⟨j, hj⟩).id| := by
  have hsafe : safetyOk req a = true := modelSat_safetyOk h
  rcases hij.lt_or_lt with hlt | hlt
  · have hp := listPairsAll_get _ _ hsafe i j hi hj hlt
    simp only [headwayPairOk, hs, Bool.not_true, Bool.false_or, Bool.or_eq_true,
      decide_eq_true_eq] at hp
    exact headway_abs hp
  · have hp := listPairsAll_get _ _ hsafe j i hj hi hlt
    have hs2 := sharesSection_symm hs
    simp only [headwayPairOk, hs2, Bool.not_true, Bool.false_or, Bool.or_eq_true,
      decide_eq_true_eq] at hp
    rw [abs_sub_comm]
    exact headway_abs hp

/-- Witness for claim C2 at the concrete solved request. -/
theorem claim_c2_headway_witness :
    5 ≤ |solvedA.train_start_times "A" - solvedA.train_start_times "B"| :=
  claim_c2_headway solvedReq solvedA solvedA_modelSat 0 1 (by decide) (by decide)
    (by decide) (by decide)

/-- Claim C3: the schedule of every response has exactly one entry per
input train, in request order, when the status is OPTIMAL or FEASIBLE, and
is empty otherwise (in particular for INFEASIBLE and ERROR). -/
theorem claim_c3_schedule_shape (req : OptimizationRequest) (o : SolveOutcome)
    (e : Int) (ca : ℚ) :
    (optimize_schedule req o e ca).optimized_schedule.map (fun s => s.train_id) =
      (if (optimize_schedule req o e ca).status = OptimizationStatus.OPTIMAL ∨
          (optimize_schedule req o e ca).status = OptimizationStatus.FEASIBLE
       then req.trains.map (fun t => t.id) else []) := by
  cases o with
  | exn m => rfl
  | ok st a =>
      cases st <;>
        first
          | rfl
          | (show (req.trains.map (scheduleEntryOfTrain req a)).map (fun s => s.train_id) =
                req.trains.map (fun t => t.id)
             rw [List.map_map]
             rfl)

/-- Claim C4 evidence (code_bug).  The claim (and the repository test
test_error_handling) says a request with time_horizon_minutes = 0 yields
status ERROR with a non-empty error message, the invalid horizon being
caught while building the model.  The code contains no horizon validation:
for the test request (zero horizon, zero trains) the build loops run zero
times, nothing raises, the built model is empty (the trivial assignment
satisfies it), and CP-SAT solves an empty model as OPTIMAL, so the
pipeline returns status OPTIMAL with an empty error message. -/
theorem claim_c4_zero_horizon_not_error :
    c4Req.time_horizon_minutes = 0 ∧
    modelSat c4Req c4A = true ∧
    (optimize_schedule c4Req (SolveOutcome.ok CpStatus.OPTIMAL c4A) 1 0).status =
      OptimizationStatus.OPTIMAL ∧
    (optimize_schedule c4Req (SolveOutcome.ok CpStatus.OPTIMAL c4A) 1 0).error_message = "" :=
  ⟨rfl, c4A_modelSat, rfl, rfl⟩

/-- Claim C5 counterexample: a solver outcome of UNKNOWN is mapped to
status TIME_LIMIT_EXCEEDED by the failure branch of `_process_solution`,
which hardcodes confidence 0.0; the claimed 0.75 never appears at the
response level. -/
theorem claim_c5_tle_confidence_cex :
    (optimize_schedule solvedReq (SolveOutcome.ok CpStatus.UNKNOWN solvedA) 5 0).status =
      OptimizationStatus.TIME_LIMIT_EXCEEDED ∧
    (optimize_schedule solvedReq (SolveOutcome.ok CpStatus.UNKNOWN solvedA) 5 0).confidence_score
      = 0 ∧
    (optimize_schedule solvedReq (SolveOutcome.ok CpStatus.UNKNOWN solvedA) 5 0).confidence_score
      ≠ 0.75 := by
  refine ⟨rfl, ?_, ?_⟩ <;> norm_num +decide [optimize_schedule, processSolution]

/-- Claim C5 as amended: the confidence score of every response is a pure
function of its status, namely OPTIMAL to 1.0, FEASIBLE to 0.85, and every
other status (including TIME_LIMIT_EXCEEDED) to 0.0. -/
theorem claim_c5_confidence_amended (req : OptimizationRequest) (o : SolveOutcome)
    (e : Int) (ca : ℚ) :
    (optimize_schedule req o e ca).confidence_score =
      amended_confidence_of_status (optimize_schedule req o e ca).status := by
  cases o with
  | exn m => rfl
  | ok st a => cases st <;> rfl

/-- Claim C6: the pipeline is total.  A normal solver outcome is processed
into a complete response; an exception raised anywhere inside the try
block of optimize_schedule is caught and converted by
`_create_error_response` into a response with status ERROR whose
error_message is exactly the exception text. -/
theorem claim_c6_exception_to_error (req : OptimizationRequest) (msg : String)
    (e : Int) (ca : ℚ) :
    optimize_schedule req (SolveOutcome.exn msg) e ca = create_error_response req msg e ca ∧
    (optimize_schedule req (SolveOutcome.exn msg) e ca).status = OptimizationStatus.ERROR ∧
    (optimize_schedule req (SolveOutcome.exn msg) e ca).error_message = msg :=
  ⟨rfl, rfl, rfl⟩

/-- Claim C7 counterexample: for a MINIMIZE_DELAY request the objective
expression the engine hands to the solver is the raw delay sum, not the
claimed priority-weighted positive-part sum.  At the feasible solution c7A
of solvedReq (train A delayed 10 minutes) the engine objective is 10 while
the claimed objective is 80. -/
theorem claim_c7_objective_cex :
    modelSat solvedReq c7A = true ∧
    solvedReq.objective.primary_objective = ObjectiveType.MINIMIZE_DELAY ∧
    (setObjective solvedReq).1 = ObjSense.minimizeSense ∧
    (setObjective solvedReq).2 c7A = 10 ∧
    claimMinimizeDelayObjective solvedReq c7A = 80 ∧
    (setObjective solvedReq).2 c7A ≠ claimMinimizeDelayObjective solvedReq c7A := by
  have h1 : (setObjective solvedReq).2 c7A = 10 := by
    norm_num +decide [setObjective, pyKeyEq, sumDelays, solvedReq, wTrainA, wTrainB, c7A]
  have h2 : claimMinimizeDelayObjective solvedReq c7A = 80 := by
    norm_num +decide [claimMinimizeDelayObjective, claimPriorityWeight, solvedReq,
      wTrainA, wTrainB, c7A]
  exact ⟨c7A_modelSat, rfl, rfl, h1, h2, by rw [h1, h2]; decide⟩

/-- Claim C7 as amended: for a MINIMIZE_DELAY request the solver minimizes
the unweighted sum of the raw (signed) per-train delay variables.  (The
Enum-against-string branch guards of `_set_objective` all fail, so the
final else runs; the priority-weighted positive-part objective of
ObjectiveManager.build_minimize_delay_objective is never invoked by the
engine.) -/
theorem claim_c7_minimize_delay_amended (req : OptimizationRequest) (a : Assignment)
    (_hp : req.objective.primary_objective = ObjectiveType.MINIMIZE_DELAY) :
    (setObjective req).1 = ObjSense.minimizeSense ∧
    (setObjective req).2 a = sumDelays req a :=
  ⟨rfl, rfl⟩

/-- Witness for the amended claim C7 at the concrete solved request. -/
theorem claim_c7_minimize_delay_amended_witness :
    (setObjective solvedReq).1 = ObjSense.minimizeSense ∧
    (setObjective solvedReq).2 solvedA = sumDelays solvedReq solvedA :=
  claim_c7_minimize_delay_amended solvedReq solvedA rfl

/-- Claim C8: in every solved schedule each train of the request has
end = start + journey time, the journey time equals
int(60 * (10 * sections) / min(0.8 * max_speed, 80)), and
start = scheduled offset (in minutes from the request reference time)
plus the resolved delay. -/
theorem claim_c8_timing (req : OptimizationRequest) (a : Assignment)
    (h : modelSat req a = true) (t : Train) (ht : t ∈ req.trains) :
    a.train_end_times t.id = a.train_start_times t.id + calculate_journey_time t ∧
    calculate_journey_time t =
      pyTrunc (60 * (10 * (t.route_sections.length : ℚ)) /
        min (0.8 * t.max_speed_kmh) 80) ∧
    a.train_start_times t.id =
      datetime_to_minutes t.scheduled_departure req.requested_at + a.train_delays t.id := by
  have htim : timingOk req a = true := modelSat_timingOk h
  have hc := List.all_eq_true.mp htim t ht
  rw [timingOkTrain, Bool.and_eq_true, beq_iff_eq, beq_iff_eq] at hc
  refine ⟨hc.1, ?_, hc.2⟩
  show pyTrunc (((t.route_sections.length : ℚ) * 10) / min (t.max_speed_kmh * 0.8) 80 * 60) = _
  congr 1
  rw [mul_comm t.max_speed_kmh (0.8 : ℚ)]
  ring

/-- Witness for claim C8 at the concrete solved request. -/
theorem claim_c8_timing_witness :
    solvedA.train_end_times wTrainA.id =
      solvedA.train_start_times wTrainA.id + calculate_journey_time wTrainA ∧
    calculate_journey_time wTrainA =
      pyTrunc (60 * (10 * (wTrainA.route_sections.length : ℚ)) /
        min (0.8 * wTrainA.max_speed_kmh) 80) ∧
    solvedA.train_start_times wTrainA.id =
      datetime_to_minutes wTrainA.scheduled_departure solvedReq.requested_at +
        solvedA.train_delays wTrainA.id :=
  claim_c8_timing solvedReq solvedA solvedA_modelSat wTrainA (List.mem_cons_self wTrainA [wTrainB])

/-- Claim C9: ConstraintBuilder.add_constraint returns False for every
request constraint whose kind is not a registry key (which, the probe
being an Enum member against string keys, is every constraint) without
raising; `_add_custom_constraints` processes the whole constraint list,
absorbing handler behaviour (including raising handlers, via its
try/except); and the solve proceeds identically whatever the request
constraint list is. -/
theorem claim_c9_constraint_dispatch (handlers : ConstraintType → HandlerOutcome)
    (c : Constraint) (cs cs2 : List Constraint) (req : OptimizationRequest)
    (o : SolveOutcome) (e : Int) (ca : ℚ) :
    constraintKindKnown c.type = false ∧
    add_constraint handlers c = false ∧
    add_custom_constraints handlers cs = cs.map (fun _ => false) ∧
    optimize_schedule { req with constraints := cs } o e ca =
      optimize_schedule { req with constraints := cs2 } o e ca := by
  refine ⟨constraintKindKnown_false c.type, add_constraint_false handlers c,
    add_custom_constraints_false handlers cs, ?_⟩
  cases o <;> rfl

/-- Claim C10: for a solved outcome the reported metrics use the hardcoded
2 hour window whatever the request horizon is: with n schedule entries
(one per train), throughput is n / 2 trains per hour and utilization is
min(n / 20 * 100, 100). -/
theorem claim_c10_metrics (req : OptimizationRequest) (a : Assignment) (e : Int)
    (ca : ℚ) (st : CpStatus) (hz : Int)
    (hst : st = CpStatus.OPTIMAL ∨ st = CpStatus.FEASIBLE) :
    (processSolution { req with time_horizon_minutes := hz } st a e ca).optimized_schedule.length
        = req.trains.length ∧
    (processSolution { req with time_horizon_minutes := hz } st a e ca).kpis.throughput_trains_per_hour
        = (((processSolution { req with time_horizon_minutes := hz } st a e ca).optimized_schedule.length : ℚ) / 2) ∧
    (processSolution { req with time_horizon_minutes := hz } st a e ca).kpis.utilization_percent
        = min (((processSolution { req with time_horizon_minutes := hz } st a e ca).optimized_schedule.length : ℚ) / 20 * 100) 100 := by
  rcases hst with h | h <;> subst h <;>
    refine ⟨by simp [processSolution], ?_, ?_⟩ <;>
      simp [processSolution, calculate_performance_metrics] <;> norm_num

/-- Witness for claim C10 at the concrete solved request with an unrelated
horizon of 999 minutes. -/
theorem claim_c10_metrics_witness :
    (processSolution { solvedReq with time_horizon_minutes := 999 } CpStatus.OPTIMAL solvedA 5 0).optimized_schedule.length
        = solvedReq.trains.length ∧
    (processSolution { solvedReq with time_horizon_minutes := 999 } CpStatus.OPTIMAL solvedA 5 0).kpis.throughput_trains_per_hour
        = (((processSolution { solvedReq with time_horizon_minutes := 999 } CpStatus.OPTIMAL solvedA 5 0).optimized_schedule.length : ℚ) / 2) ∧
    (processSolution { solvedReq with time_horizon_minutes := 999 } CpStatus.OPTIMAL solvedA 5 0).kpis.utilization_percent
        = min (((processSolution { solvedReq with time_horizon_minutes := 999 } CpStatus.OPTIMAL solvedA 5 0).optimized_schedule.length : ℚ) / 20 * 100) 100 :=
  claim_c10_metrics solvedReq solvedA 5 0 CpStatus.OPTIMAL 999 (Or.inl rfl)

end RailwayOpt
